import Mathlib

/-!
Verification of the alarm-clock scheduling and lifecycle subsystem
(`custom_components/alarm_clock`): a shallow embedding of the state machine
(`state_machine.py`), the scheduler and command API (`coordinator.py`) and the
constants (`const.py`), together with proofs of the specified properties.

Time is modelled as whole seconds since a local-time epoch that falls on a
Monday at 00:00:00, so that `t / 86400` is the date index and
`(t / 86400) % 7` is Python's `date.weekday()` (0 = Monday).
-/

namespace AlarmClock

/-- The eight alarm states of `const.AlarmState`. -/
inductive AlarmState where
  | disabled
  | armed
  | preAlarm
  | ringing
  | snoozed
  | dismissed
  | autoDismissed
  | missed
deriving DecidableEq, BEq, Repr, Fintype

/-- Embeds `const.VALID_STATE_TRANSITIONS`: the transition table of the state machine. -/
def VALID_STATE_TRANSITIONS : AlarmState → List AlarmState
  | .disabled => [.armed]
  | .armed => [.disabled, .preAlarm, .ringing, .missed]
  | .preAlarm => [.ringing, .disabled, .missed]
  | .ringing => [.snoozed, .dismissed, .autoDismissed, .disabled]
  | .snoozed => [.ringing, .dismissed, .disabled]
  | .dismissed => [.armed, .disabled]
  | .autoDismissed => [.armed, .disabled]
  | .missed => [.armed, .disabled]

/-- Embeds `const.TRIGGER_SCHEDULED`. -/
def TRIGGER_SCHEDULED : String := "scheduled"

/-- Embeds `const.TRIGGER_MANUAL_TEST`. -/
def TRIGGER_MANUAL_TEST : String := "manual_test"

/-- Embeds `const.TRIGGER_MISSED_RECOVERY`. -/
def TRIGGER_MISSED_RECOVERY : String := "missed_recovery"

/-- Embeds `const.DEFAULT_MISSED_ALARM_GRACE_PERIOD` (minutes). -/
def DEFAULT_MISSED_ALARM_GRACE_PERIOD : Nat := 5

/-- Embeds `const.WEEKDAYS`: weekday names indexed by Python `date.weekday()`. -/
def WEEKDAYS : List String :=
  ["monday", "tuesday", "wednesday", "thursday", "friday", "saturday", "sunday"]

/-- Embeds `state_machine.AlarmRuntimeState`: the per-alarm runtime snapshot.
Instants are seconds since the epoch. -/
structure AlarmRuntimeState where
  state : AlarmState := .disabled
  snooze_count : Nat := 0
  last_triggered : Option Nat := none
  last_state_change : Option Nat := none
  current_trigger_type : Option String := none
  next_trigger : Option Nat := none
  snooze_end_time : Option Nat := none
  pre_alarm_start_time : Option Nat := none
  ringing_start_time : Option Nat := none
deriving DecidableEq, Repr

/-- Embeds `state_machine.AlarmData`: the persisted alarm configuration. -/
structure AlarmData where
  alarm_id : String
  name : String
  time : String
  enabled : Bool := true
  days : List String := ["monday", "tuesday", "wednesday", "thursday", "friday"]
  one_time : Bool := false
  skip_next : Bool := false
  snooze_duration : Nat := 9
  max_snooze_count : Nat := 3
  auto_dismiss_timeout : Nat := 60
  pre_alarm_duration : Nat := 5
  gradual_volume : Bool := false
  gradual_volume_duration : Nat := 5
  use_device_defaults : Bool := true
  script_pre_alarm : Option String := none
  script_alarm : Option String := none
  script_post_alarm : Option String := none
  script_on_snooze : Option String := none
  script_on_dismiss : Option String := none
  script_on_arm : Option String := none
  script_on_cancel : Option String := none
  script_on_skip : Option String := none
  script_fallback : Option String := none
  script_timeout : Nat := 30
  script_retry_count : Nat := 3
deriving DecidableEq, Repr

/-- Embeds `AlarmStateMachine.can_transition_to`. -/
def canTransitionTo (r : AlarmRuntimeState) (target : AlarmState) : Bool :=
  (VALID_STATE_TRANSITIONS r.state).contains target

/-- Embeds `AlarmStateMachine.transition_to`, as a pure function of the runtime state:
returns whether the transition was accepted together with the new runtime state. -/
def transitionTo (r : AlarmRuntimeState) (target : AlarmState)
    (triggerType : Option String) (force : Bool) (now : Nat) :
    Bool × AlarmRuntimeState :=
  if !force && !canTransitionTo r target then
    (false, r)
  else
    let r1 := { r with state := target, last_state_change := some now }
    let r2 :=
      if target = AlarmState.ringing then
        { r1 with current_trigger_type := triggerType, last_triggered := some now,
                  ringing_start_time := some now }
      else if target = AlarmState.snoozed then
        { r1 with snooze_count := r1.snooze_count + 1 }
      else if target = AlarmState.dismissed ∨ target = AlarmState.autoDismissed
              ∨ target = AlarmState.armed then
        { r1 with snooze_count := 0, current_trigger_type := none,
                  ringing_start_time := none, snooze_end_time := none,
                  pre_alarm_start_time := none }
      else if target = AlarmState.preAlarm then
        { r1 with pre_alarm_start_time := some now }
      else r1
    (true, r2)

/-- The transition table exactly as the spec section 4.1 lists it, edge by edge. -/
def specAllowedEdge : AlarmState → AlarmState → Bool
  | .disabled, .armed => true
  | .armed, .disabled => true
  | .armed, .preAlarm => true
  | .armed, .ringing => true
  | .armed, .missed => true
  | .preAlarm, .ringing => true
  | .preAlarm, .disabled => true
  | .preAlarm, .missed => true
  | .ringing, .snoozed => true
  | .ringing, .dismissed => true
  | .ringing, .autoDismissed => true
  | .ringing, .disabled => true
  | .snoozed, .ringing => true
  | .snoozed, .dismissed => true
  | .snoozed, .disabled => true
  | .dismissed, .armed => true
  | .dismissed, .disabled => true
  | .autoDismissed, .armed => true
  | .autoDismissed, .disabled => true
  | .missed, .armed => true
  | .missed, .disabled => true
  | _, _ => false

lemma canTransitionTo_eq_specAllowedEdge (r : AlarmRuntimeState) (t : AlarmState) :
    canTransitionTo r t = specAllowedEdge r.state t := by
  have h : ∀ s u, (VALID_STATE_TRANSITIONS s).contains u = specAllowedEdge s u := by decide
  exact h r.state t

lemma transitionTo_fst (r : AlarmRuntimeState) (t : AlarmState)
    (tt : Option String) (now : Nat) :
    (transitionTo r t tt false now).fst = canTransitionTo r t := by
  unfold transitionTo
  cases h : canTransitionTo r t <;> simp [h]

/-- Claim C3: a non-forced `transition_to t` from state `s` succeeds exactly when
`(s, t)` is an allowed edge of the spec's transition table, and a refused
transition leaves every field of the runtime state unchanged. -/
theorem transition_to_matches_spec_table (r : AlarmRuntimeState) (t : AlarmState)
    (tt : Option String) (now : Nat) :
    ((transitionTo r t tt false now).fst = true ↔ specAllowedEdge r.state t = true)
    ∧ ((transitionTo r t tt false now).fst = false →
        (transitionTo r t tt false now).snd = r) := by
  constructor
  · rw [transitionTo_fst, canTransitionTo_eq_specAllowedEdge]
  · intro hfail
    rw [transitionTo_fst] at hfail
    unfold transitionTo
    simp [hfail]

/-- Witness for C3 at a concrete refused transition: from `disabled` to
`ringing`, nothing changes. -/
theorem transition_to_matches_spec_table_witness :
    (transitionTo {} AlarmState.ringing none false 0).snd = {} :=
  (transition_to_matches_spec_table {} AlarmState.ringing none 0).2 (by decide)

/-! ## Serialization: `AlarmData.to_dict` / `AlarmData.from_dict` -/

/-- A storage dictionary as produced or consumed by `AlarmData.to_dict` and
`AlarmData.from_dict`: each key is either absent (`none`) or present with a
value.  Keys whose Python value may itself be `None` carry an
`Option (Option String)`. -/
structure AlarmDataDict where
  alarm_id : Option String := none
  name : Option String := none
  time : Option String := none
  enabled : Option Bool := none
  days : Option (List String) := none
  one_time : Option Bool := none
  skip_next : Option Bool := none
  snooze_duration : Option Nat := none
  max_snooze_count : Option Nat := none
  auto_dismiss_timeout : Option Nat := none
  pre_alarm_duration : Option Nat := none
  gradual_volume : Option Bool := none
  gradual_volume_duration : Option Nat := none
  use_device_defaults : Option Bool := none
  script_pre_alarm : Option (Option String) := none
  script_alarm : Option (Option String) := none
  script_post_alarm : Option (Option String) := none
  script_on_snooze : Option (Option String) := none
  script_on_dismiss : Option (Option String) := none
  script_on_arm : Option (Option String) := none
  script_on_cancel : Option (Option String) := none
  script_on_skip : Option (Option String) := none
  script_fallback : Option (Option String) := none
  script_timeout : Option Nat := none
  script_retry_count : Option Nat := none
deriving DecidableEq, Repr

/-- Embeds `AlarmData.to_dict`: every key is written. -/
def toDict (a : AlarmData) : AlarmDataDict where
  alarm_id := some a.alarm_id
  name := some a.name
  time := some a.time
  enabled := some a.enabled
  days := some a.days
  one_time := some a.one_time
  skip_next := some a.skip_next
  snooze_duration := some a.snooze_duration
  max_snooze_count := some a.max_snooze_count
  auto_dismiss_timeout := some a.auto_dismiss_timeout
  pre_alarm_duration := some a.pre_alarm_duration
  gradual_volume := some a.gradual_volume
  gradual_volume_duration := some a.gradual_volume_duration
  use_device_defaults := some a.use_device_defaults
  script_pre_alarm := some a.script_pre_alarm
  script_alarm := some a.script_alarm
  script_post_alarm := some a.script_post_alarm
  script_on_snooze := some a.script_on_snooze
  script_on_dismiss := some a.script_on_dismiss
  script_on_arm := some a.script_on_arm
  script_on_cancel := some a.script_on_cancel
  script_on_skip := some a.script_on_skip
  script_fallback := some a.script_fallback
  script_timeout := some a.script_timeout
  script_retry_count := some a.script_retry_count

/-- Embeds `AlarmData.from_dict`: `data["alarm_id"]`, `data["name"]` and
`data["time"]` are required lookups (a missing key raises, modelled as
`none`); every other key is read with `data.get(key, default)`. -/
def fromDict (d : AlarmDataDict) : Option AlarmData :=
  match d.alarm_id, d.name, d.time with
  | some alarmId, some name, some time =>
    some
      { alarm_id := alarmId
        name := name
        time := time
        enabled := d.enabled.getD true
        days := d.days.getD ["monday", "tuesday", "wednesday", "thursday", "friday"]
        one_time := d.one_time.getD false
        skip_next := d.skip_next.getD false
        snooze_duration := d.snooze_duration.getD 9
        max_snooze_count := d.max_snooze_count.getD 3
        auto_dismiss_timeout := d.auto_dismiss_timeout.getD 60
        pre_alarm_duration := d.pre_alarm_duration.getD 5
        gradual_volume := d.gradual_volume.getD false
        gradual_volume_duration := d.gradual_volume_duration.getD 5
        use_device_defaults := d.use_device_defaults.getD true
        script_pre_alarm := d.script_pre_alarm.getD none
        script_alarm := d.script_alarm.getD none
        script_post_alarm := d.script_post_alarm.getD none
        script_on_snooze := d.script_on_snooze.getD none
        script_on_dismiss := d.script_on_dismiss.getD none
        script_on_arm := d.script_on_arm.getD none
        script_on_cancel := d.script_on_cancel.getD none
        script_on_skip := d.script_on_skip.getD none
        script_fallback := d.script_fallback.getD none
        script_timeout := d.script_timeout.getD 30
        script_retry_count := d.script_retry_count.getD 3 }
  | _, _, _ => none

/-- Claim C9: serialize, deserialize, serialize again yields the same
dictionary: `to_dict(from_dict(to_dict(a))) = to_dict(a)`. -/
theorem alarm_data_round_trip (a : AlarmData) :
    (fromDict (toDict a)).map toDict = some (toDict a) := rfl

/-! ## Scheduler: `AlarmClockCoordinator._calculate_next_trigger`

Python string primitives (`str.split`, `int`, `str.lower`) are embedded over
`List Char` so that everything evaluates in the kernel. -/

/-- Python `str.split(sep)` for a one-character separator. -/
def splitOnChar (c : Char) : List Char → List (List Char)
  | [] => [[]]
  | x :: xs =>
    if x = c then [] :: splitOnChar c xs
    else
      match splitOnChar c xs with
      | [] => [[x]]
      | h :: t => (x :: h) :: t

/-- Decimal digit value of a character, if it is one. -/
def digitVal? (ch : Char) : Option Nat :=
  if '0' ≤ ch ∧ ch ≤ '9' then some (ch.toNat - '0'.toNat) else none

def chToNatAux : List Char → Nat → Option Nat
  | [], acc => some acc
  | c :: cs, acc =>
    match digitVal? c with
    | some d => chToNatAux cs (acc * 10 + d)
    | none => none

/-- Python `int(s)` on a non-negative decimal string: `None` models the
`ValueError` raised on empty or non-digit input. -/
def chToNat? (l : List Char) : Option Nat :=
  match l with
  | [] => none
  | _ => chToNatAux l 0

/-- Embeds `hour, minute = map(int, alarm_data.time.split(":"))` with the surrounding
`try`: any `ValueError` (wrong number of parts, non-numeric part) gives `none`. -/
def parseAlarmTime (s : String) : Option (Nat × Nat) :=
  match splitOnChar ':' s.data with
  | [hs, ms] =>
    match chToNat? hs, chToNat? ms with
    | some h, some m => some (h, m)
    | _, _ => none
  | _ => none

/-- ASCII lowering of one character (Python `str.lower` on the day names). -/
def lowerChar (c : Char) : Char :=
  if 'A' ≤ c ∧ c ≤ 'Z' then Char.ofNat (c.toNat + 32) else c

/-- Python `day.lower()`. -/
def lowerString (s : String) : String := String.mk (s.data.map lowerChar)

/-- The candidate instant `(today + days_ahead) at hour:minute`
(`dt_util.now().replace(year .. minute, second=0, microsecond=0)`). -/
def triggerTimeFor (now daysAhead hour minute : Nat) : Nat :=
  (now / 86400 + daysAhead) * 86400 + hour * 3600 + minute * 60

/-- Embeds `day_name in [d.lower() for d in alarm_data.days]` for the date
`today + daysAhead`. -/
def dayMatches (days : List String) (now daysAhead : Nat) : Bool :=
  decide (WEEKDAYS.getD ((now / 86400 + daysAhead) % 7) "" ∈ days.map lowerString)

/-- The `for days_ahead in range(8)` loop of `_calculate_next_trigger`,
at index `d` with `fuel` iterations left. -/
def nextTriggerFrom (days : List String) (now hour minute : Nat) :
    Nat → Nat → Option Nat
  | _, 0 => none
  | d, fuel + 1 =>
    if dayMatches days now d then
      let triggerTime := triggerTimeFor now d hour minute
      if d == 0 && triggerTime ≤ now then
        nextTriggerFrom days now hour minute (d + 1) fuel
      else some triggerTime
    else nextTriggerFrom days now hour minute (d + 1) fuel

/-- Embeds `AlarmClockCoordinator._calculate_next_trigger`. -/
def calculateNextTrigger (a : AlarmData) (now : Nat) : Option Nat :=
  match parseAlarmTime a.time with
  | none => none
  | some (hour, minute) => nextTriggerFrom a.days now hour minute 0 8

/-- A candidate day offset that the loop would return at: its weekday is in
`days` and its instant is strictly in the future. -/
def candidatePasses (days : List String) (now hour minute d : Nat) : Prop :=
  dayMatches days now d = true ∧ now < triggerTimeFor now d hour minute

lemma triggerTimeFor_future (now d hour minute : Nat) (hd : 1 ≤ d) :
    now < triggerTimeFor now d hour minute := by
  unfold triggerTimeFor
  omega

lemma triggerTimeFor_mono (now hour minute : Nat) {d1 d2 : Nat} (h : d1 ≤ d2) :
    triggerTimeFor now d1 hour minute ≤ triggerTimeFor now d2 hour minute := by
  unfold triggerTimeFor
  omega

lemma nextTriggerFrom_none (days : List String) (now hour minute : Nat)
    (d fuel : Nat)
    (h : ∀ i, d ≤ i → i < d + fuel → ¬ candidatePasses days now hour minute i) :
    nextTriggerFrom days now hour minute d fuel = none := by
  induction fuel generalizing d with
  | zero => rfl
  | succ fuel ih =>
    have hd : ¬ candidatePasses days now hour minute d := h d le_rfl (by omega)
    unfold nextTriggerFrom
    by_cases hm : dayMatches days now d
    · have hle : triggerTimeFor now d hour minute ≤ now := by
        by_contra hlt
        exact hd ⟨hm, Nat.lt_of_not_le hlt⟩
      have hd0 : d = 0 := by
        by_contra h0
        exact absurd (triggerTimeFor_future now d hour minute (by omega))
          (Nat.not_lt.mpr hle)
      simp only [hm, if_true, hd0]
      simp only [hd0] at hle
      simp [hle]
      exact ih 1 fun i h1 h2 => h i (by omega) (by omega)
    · simp only [hm]
      simp
      exact ih (d + 1) fun i h1 h2 => h i (by omega) (by omega)

lemma nextTriggerFrom_spec (days : List String) (now hour minute : Nat)
    (d fuel i : Nat) (hdi : d ≤ i) (hif : i < d + fuel)
    (hp : candidatePasses days now hour minute i) :
    ∃ j, d ≤ j ∧ j < d + fuel ∧ candidatePasses days now hour minute j ∧
      nextTriggerFrom days now hour minute d fuel
        = some (triggerTimeFor now j hour minute) ∧
      ∀ k, d ≤ k → k < d + fuel → candidatePasses days now hour minute k → j ≤ k := by
  induction fuel generalizing d with
  | zero => omega
  | succ fuel ih =>
    by_cases hd : candidatePasses days now hour minute d
    · refine ⟨d, le_rfl, by omega, hd, ?_, fun k hk _ _ => hk⟩
      unfold nextTriggerFrom
      have hnot : ¬ (d = 0 ∧ triggerTimeFor now d hour minute ≤ now) := by
        rintro ⟨_, hle⟩
        exact absurd hd.2 (Nat.not_lt.mpr hle)
      rcases Nat.eq_zero_or_pos d with hd0 | hdpos
      · have hfut : ¬ triggerTimeFor now d hour minute ≤ now := fun hle => hnot ⟨hd0, hle⟩
        subst hd0
        simp [hd.1, hfut]
      · have : (d == 0) = false := by simp; omega
        simp [hd.1, this]
    · have hij : d + 1 ≤ i := by
        rcases Nat.eq_or_lt_of_le hdi with rfl | h
        · exact absurd hp hd
        · omega
      obtain ⟨j, hj1, hj2, hjp, hjeq, hjmin⟩ :=
        ih (d + 1) hij (by omega)
      refine ⟨j, by omega, by omega, hjp, ?_, ?_⟩
      · unfold nextTriggerFrom
        by_cases hm : dayMatches days now d
        · have hle : triggerTimeFor now d hour minute ≤ now := by
            by_contra hlt
            exact hd ⟨hm, Nat.lt_of_not_le hlt⟩
          have hd0 : d = 0 := by
            by_contra h0
            exact absurd (triggerTimeFor_future now d hour minute (by omega))
              (Nat.not_lt.mpr hle)
          subst hd0
          simpa [hm, hle] using hjeq
        · simpa [hm] using hjeq
      · intro k hk1 hk2 hkp
        rcases Nat.eq_or_lt_of_le hk1 with rfl | h
        · exact absurd hkp hd
        · exact hjmin k (by omega) (by omega) hkp

lemma weekday_getD_mem (i : Nat) (hi : i < 7) :
    WEEKDAYS.getD i "" ∈ WEEKDAYS := by
  interval_cases i <;> decide

lemma weekday_index_exists (x : String) (hx : x ∈ WEEKDAYS) :
    ∃ w, w < 7 ∧ WEEKDAYS.getD w "" = x := by
  simp only [WEEKDAYS, List.mem_cons, List.not_mem_nil, or_false] at hx
  rcases hx with rfl | rfl | rfl | rfl | rfl | rfl | rfl
  · exact ⟨0, by omega, rfl⟩
  · exact ⟨1, by omega, rfl⟩
  · exact ⟨2, by omega, rfl⟩
  · exact ⟨3, by omega, rfl⟩
  · exact ⟨4, by omega, rfl⟩
  · exact ⟨5, by omega, rfl⟩
  · exact ⟨6, by omega, rfl⟩

lemma exists_passing_candidate (days : List String) (now hour minute : Nat)
    (hday : ∃ s ∈ days, lowerString s ∈ WEEKDAYS) :
    ∃ i, i < 8 ∧ candidatePasses days now hour minute i := by
  obtain ⟨s, hs, hsw⟩ := hday
  obtain ⟨w, hw, hweq⟩ := weekday_index_exists (lowerString s) hsw
  have hr : now / 86400 % 7 < 7 := Nat.mod_lt _ (by omega)
  set r := now / 86400 % 7 with hrdef
  have hmem : ∀ d, (now / 86400 + d) % 7 = w → dayMatches days now d = true := by
    intro d hd
    unfold dayMatches
    rw [hd, hweq]
    exact decide_eq_true (List.mem_map.mpr ⟨s, hs, rfl⟩)
  by_cases h0 : candidatePasses days now hour minute ((w + 7 - r) % 7)
  · exact ⟨(w + 7 - r) % 7, by omega, h0⟩
  · have hd0mod : (now / 86400 + (w + 7 - r) % 7) % 7 = w := by omega
    have hd0match : dayMatches days now ((w + 7 - r) % 7) = true := hmem _ hd0mod
    have hd0zero : (w + 7 - r) % 7 = 0 := by
      by_contra hne
      exact h0 ⟨hd0match, triggerTimeFor_future now _ hour minute (by omega)⟩
    have h7mod : (now / 86400 + 7) % 7 = w := by omega
    exact ⟨7, by omega,
      hmem 7 h7mod, triggerTimeFor_future now 7 hour minute (by omega)⟩

lemma triggerTimeFor_div (now d hour minute : Nat) (hh : hour < 24)
    (hm : minute < 60) : triggerTimeFor now d hour minute / 86400 = now / 86400 + d := by
  unfold triggerTimeFor
  omega

/-- Claim C4: with a well-formed HH:MM time, `skip_next` false and a valid
weekday in `days`, `_calculate_next_trigger` returns the smallest of the 8
daily candidates whose weekday lies in `days` and which is strictly later than
`now`; the result is strictly in the future and its weekday lies in `days`.
With no valid weekday in `days`, it returns `None`. -/
theorem calculate_next_trigger_spec :
    (∀ (a : AlarmData) (now hour minute : Nat),
      parseAlarmTime a.time = some (hour, minute) → hour < 24 → minute < 60 →
      a.skip_next = false →
      (∃ s ∈ a.days, lowerString s ∈ WEEKDAYS) →
      ∃ t, calculateNextTrigger a now = some t ∧ now < t ∧
        WEEKDAYS.getD (t / 86400 % 7) "" ∈ a.days.map lowerString ∧
        (∃ d, d < 8 ∧ t = triggerTimeFor now d hour minute) ∧
        (∀ d, d < 8 → dayMatches a.days now d = true →
          now < triggerTimeFor now d hour minute →
          t ≤ triggerTimeFor now d hour minute))
    ∧ (∀ (a : AlarmData) (now : Nat),
        (∀ s ∈ a.days, lowerString s ∉ WEEKDAYS) →
        calculateNextTrigger a now = none) := by
  constructor
  · intro a now hour minute hparse hh hm _ hday
    obtain ⟨i, hi8, hip⟩ := exists_passing_candidate a.days now hour minute hday
    obtain ⟨j, _, hj8, hjp, hjeq, hjmin⟩ :=
      nextTriggerFrom_spec a.days now hour minute 0 8 i (Nat.zero_le i)
        (by omega) hip
    refine ⟨triggerTimeFor now j hour minute, ?_, hjp.2, ?_, ⟨j, by omega, rfl⟩, ?_⟩
    · unfold calculateNextTrigger
      rw [hparse]
      exact hjeq
    · have : triggerTimeFor now j hour minute / 86400 % 7 = (now / 86400 + j) % 7 := by
        rw [triggerTimeFor_div now j hour minute hh hm]
      rw [this]
      have := hjp.1
      unfold dayMatches at this
      exact of_decide_eq_true this
    · intro d hd8 hdm hdf
      exact triggerTimeFor_mono now hour minute (hjmin d (Nat.zero_le d) (by omega) ⟨hdm, hdf⟩)
  · intro a now hnone
    unfold calculateNextTrigger
    cases hparse : parseAlarmTime a.time with
    | none => rfl
    | some p =>
      cases p with
      | mk hour minute =>
        apply nextTriggerFrom_none
        intro i _ _ hp
        have hmem := of_decide_eq_true hp.1
        obtain ⟨s, hs, hseq⟩ := List.mem_map.mp hmem
        apply hnone s hs
        rw [hseq]
        exact weekday_getD_mem _ (Nat.mod_lt _ (by omega))

/-- Witness for C4: `time = "07:00"`, `days = ["monday"]`, `now = 0`
(Monday midnight) yields Monday 07:00, 25200 seconds in. -/
theorem calculate_next_trigger_spec_witness :
    ∃ t, calculateNextTrigger
        { alarm_id := "a1", name := "Wake", time := "07:00", days := ["monday"] } 0
        = some t ∧ 0 < t ∧
      WEEKDAYS.getD (t / 86400 % 7) "" ∈ ["monday"].map lowerString ∧
      (∃ d, d < 8 ∧ t = triggerTimeFor 0 d 7 0) ∧
      (∀ d, d < 8 → dayMatches ["monday"] 0 d = true →
        0 < triggerTimeFor 0 d 7 0 → t ≤ triggerTimeFor 0 d 7 0) :=
  calculate_next_trigger_spec.1
    { alarm_id := "a1", name := "Wake", time := "07:00", days := ["monday"] } 0 7 0
    (by decide) (by decide) (by decide) rfl ⟨"monday", by decide, by decide⟩

lemma nextTriggerFrom_sound (days : List String) (now hour minute : Nat)
    (d fuel t : Nat)
    (h : nextTriggerFrom days now hour minute d fuel = some t) : now < t := by
  induction fuel generalizing d with
  | zero => simp [nextTriggerFrom] at h
  | succ fuel ih =>
    unfold nextTriggerFrom at h
    by_cases hm : dayMatches days now d
    · simp only [hm, if_true] at h
      split at h
      · exact ih (d + 1) h
      · rename_i hcond
        rcases Option.some.inj h with rfl
        rcases Nat.eq_zero_or_pos d with hd0 | hdpos
        · subst hd0
          simp at hcond
          exact hcond
        · exact triggerTimeFor_future now d hour minute (by omega)
    · simp only [hm, if_false, Bool.false_eq_true] at h
      exact ih (d + 1) h

lemma calculateNextTrigger_future (a : AlarmData) (now t : Nat)
    (h : calculateNextTrigger a now = some t) : now < t := by
  unfold calculateNextTrigger at h
  cases hparse : parseAlarmTime a.time with
  | none => rw [hparse] at h; exact absurd h (by simp)
  | some p =>
    rw [hparse] at h
    cases p with
    | mk hour minute => exact nextTriggerFrom_sound a.days now hour minute 0 8 t h

/-! ## Startup missed-alarm check
(`AlarmClockCoordinator._async_check_missed_alarms`) -/

/-- What `_async_check_missed_alarms` does for one alarm: the
`missed_by_seconds` payload of a fired `Missed` event, and whether
`_async_trigger_alarm(.., TRIGGER_MISSED_RECOVERY)` was invoked. -/
structure MissedCheckResult where
  missedEventSeconds : Option Nat
  recoveryTriggered : Bool
deriving DecidableEq, Repr

/-- The per-alarm body of `_async_check_missed_alarms`: skip non-`Armed` or
disabled alarms, compute `_calculate_next_trigger`, and fire `Missed` plus a
missed-recovery trigger when the expected trigger lies in the past within the
grace period. -/
def checkMissedAlarm (data : AlarmData) (r : AlarmRuntimeState) (now : Nat) :
    MissedCheckResult :=
  if r.state ≠ AlarmState.armed then ⟨none, false⟩
  else if !data.enabled then ⟨none, false⟩
  else
    match calculateNextTrigger data now with
    | none => ⟨none, false⟩
    | some expectedTrigger =>
      if expectedTrigger < now then
        let timeMissed := now - expectedTrigger
        if timeMissed ≤ DEFAULT_MISSED_ALARM_GRACE_PERIOD * 60 then
          ⟨some timeMissed, true⟩
        else ⟨none, false⟩
      else ⟨none, false⟩

/-- Claim C2: the missed-alarm check is dead code.  `_calculate_next_trigger`
only ever returns instants strictly in the future (its day-0 candidate is
skipped when not past `now`, later candidates lie on later dates), so
`expected_trigger < now` never holds: no `Missed` event is ever emitted and no
missed-recovery trigger ever fires, for any alarm and any startup instant —
including the spec's scenario S4 (`time=07:00, days={Mon}`, startup Monday
07:03). -/
theorem check_missed_alarms_never_fires (data : AlarmData) (r : AlarmRuntimeState)
    (now : Nat) : checkMissedAlarm data r now = ⟨none, false⟩ := by
  unfold checkMissedAlarm
  by_cases hs : r.state = AlarmState.armed
  · by_cases he : data.enabled
    · simp only [hs, he]
      cases hcalc : calculateNextTrigger data now with
      | none => simp
      | some t =>
        have := calculateNextTrigger_future data now t hcalc
        simp [Nat.not_lt.mpr (Nat.le_of_lt this)]
    · simp [he]
  · simp [hs]

/-! ## Scheduling and `skip_next`
(`AlarmClockCoordinator._schedule_alarm`, `async_skip_next`,
`async_cancel_skip`) -/

/-- Outcome of `_schedule_alarm`: the stored `next_trigger`, the instant the
main timer was armed for (if any), and the instant the pre-alarm timer was
armed for (if any).  `none` means the corresponding callback was cancelled or
never armed. -/
structure ScheduleResult where
  nextTrigger : Option Nat
  mainTimerAt : Option Nat
  preAlarmTimerAt : Option Nat
deriving DecidableEq, Repr

/-- Embeds `AlarmClockCoordinator._schedule_alarm`: with `enabled` false or
`skip_next` true it clears `next_trigger` and cancels the scheduled callback;
otherwise it computes the next trigger, optionally arms the pre-alarm timer,
and arms the main timer at the trigger. -/
def scheduleAlarm (data : AlarmData) (now : Nat) : ScheduleResult :=
  if !data.enabled || data.skip_next then ⟨none, none, none⟩
  else
    match calculateNextTrigger data now with
    | none => ⟨none, none, none⟩
    | some nextTrigger =>
      let preAlarmTimer :=
        if data.pre_alarm_duration > 0 ∧ now < nextTrigger - data.pre_alarm_duration * 60
        then some (nextTrigger - data.pre_alarm_duration * 60)
        else none
      ⟨some nextTrigger, some nextTrigger, preAlarmTimer⟩

/-- Embeds `AlarmClockCoordinator.async_skip_next` on the alarm configuration:
sets `skip_next` (the command also cancels the main and pre-alarm timers). -/
def asyncSkipNext (data : AlarmData) : AlarmData := { data with skip_next := true }

/-- Embeds `AlarmClockCoordinator.async_cancel_skip` on the alarm configuration:
clears `skip_next` (the command then reschedules an `Armed` alarm). -/
def asyncCancelSkip (data : AlarmData) : AlarmData := { data with skip_next := false }

/-- Counterexample to claim C5: an enabled alarm (`time=07:00`,
`days=[monday]`) with `skip_next` set has a perfectly good next candidate
occurrence (Monday 07:00 = 25200 s), yet `_schedule_alarm` arms no timer at
all — there is no recomputation from `candidate + 1 minute` and no armed
timer for a later occurrence. -/
theorem skip_next_schedules_nothing_cex :
    scheduleAlarm
        { alarm_id := "a1", name := "Wake", time := "07:00",
          days := ["monday"], skip_next := true } 0
      = ⟨none, none, none⟩
    ∧ calculateNextTrigger
        { alarm_id := "a1", name := "Wake", time := "07:00",
          days := ["monday"], skip_next := true } 0
      = some 25200 := by
  constructor
  · rfl
  · decide

/-- Claim C5 as amended: while `skip_next` is true, `_schedule_alarm` arms
neither the main nor the pre-alarm timer and stores no `next_trigger`;
`async_skip_next` sets the flag and `async_cancel_skip` clears it — no
scheduled firing consumes it. -/
theorem skip_next_amended (data : AlarmData) (now : Nat)
    (h : data.skip_next = true) :
    scheduleAlarm data now = ⟨none, none, none⟩
    ∧ (asyncSkipNext data).skip_next = true
    ∧ (asyncCancelSkip data).skip_next = false
    ∧ scheduleAlarm (asyncSkipNext data) now = ⟨none, none, none⟩ := by
  refine ⟨?_, rfl, rfl, ?_⟩ <;> simp [scheduleAlarm, asyncSkipNext, h]

/-- Witness for the amended C5 at a concrete skipping alarm. -/
theorem skip_next_amended_witness :
    scheduleAlarm
        { alarm_id := "a2", name := "Wake", time := "06:30",
          days := ["friday"], skip_next := true } 1000
      = ⟨none, none, none⟩ :=
  (skip_next_amended
    { alarm_id := "a2", name := "Wake", time := "06:30",
      days := ["friday"], skip_next := true } 1000 rfl).1

/-! ## Alarm triggering and the duplicate-fire guard
(`AlarmClockCoordinator._async_handle_alarm_trigger`,
`_async_trigger_alarm`) -/

/-- Embeds `AlarmClockCoordinator._async_trigger_alarm`: transition to `Ringing`
(abort on failure), then fire `Triggered`, run the alarm script, and arm the
auto-dismiss timer.  Returns the new runtime state, whether the transition to
`Ringing` happened, and the armed auto-dismiss instant. -/
def triggerAlarm (data : AlarmData) (r : AlarmRuntimeState) (triggerType : String)
    (now : Nat) : AlarmRuntimeState × Bool × Option Nat :=
  let res := transitionTo r AlarmState.ringing (some triggerType) false now
  if res.fst then
    (res.snd, true, some (now + data.auto_dismiss_timeout * 60))
  else (res.snd, false, none)

/-- The coordinator state that `_async_handle_alarm_trigger` consults for one
alarm: its `_last_trigger_times` entry and the alarm's runtime state. -/
structure TriggerGuardState where
  lastTriggerTime : Option Nat := none
  runtime : AlarmRuntimeState := {}
deriving DecidableEq, Repr

/-- Embeds `AlarmClockCoordinator._async_handle_alarm_trigger`: ignore the delivery
when a previous trigger of the same alarm lies less than 60 seconds back;
otherwise record `now` and trigger the alarm as `scheduled`.  The returned
flag says whether a transition to `Ringing` happened. -/
def handleAlarmTrigger (data : AlarmData) (s : TriggerGuardState) (now : Nat) :
    TriggerGuardState × Bool :=
  let isDuplicate : Bool :=
    match s.lastTriggerTime with
    | some last => decide (now - last < 60)
    | none => false
  if isDuplicate then (s, false)
  else
    let res := triggerAlarm data s.runtime TRIGGER_SCHEDULED now
    (⟨some now, res.fst⟩, res.snd.fst)

/-- Claim C7: two main-timer deliveries for the same alarm within 60 seconds
of each other produce exactly one transition to `Ringing`: the first rings,
the second is ignored by the duplicate-fire guard and changes nothing. -/
theorem duplicate_fire_guard_spec (data : AlarmData) (r : AlarmRuntimeState)
    (t1 t2 : Nat) (hring : canTransitionTo r AlarmState.ringing = true)
    (_hfirst : t1 ≤ t2) (hwin : t2 - t1 < 60) :
    (handleAlarmTrigger data ⟨none, r⟩ t1).snd = true
    ∧ (handleAlarmTrigger data ⟨none, r⟩ t1).fst.runtime.state = AlarmState.ringing
    ∧ (handleAlarmTrigger data (handleAlarmTrigger data ⟨none, r⟩ t1).fst t2).snd
        = false
    ∧ (handleAlarmTrigger data (handleAlarmTrigger data ⟨none, r⟩ t1).fst t2).fst
        = (handleAlarmTrigger data ⟨none, r⟩ t1).fst := by
  have hfst : (transitionTo r AlarmState.ringing (some TRIGGER_SCHEDULED)
      false t1).fst = true := by rw [transitionTo_fst]; exact hring
  have h1 : handleAlarmTrigger data ⟨none, r⟩ t1
      = (⟨some t1, (transitionTo r AlarmState.ringing (some TRIGGER_SCHEDULED)
          false t1).snd⟩, true) := by
    simp [handleAlarmTrigger, triggerAlarm, hfst]
  have hstate : (transitionTo r AlarmState.ringing (some TRIGGER_SCHEDULED)
      false t1).snd.state = AlarmState.ringing := by
    unfold transitionTo
    simp [hring]
  refine ⟨by rw [h1], by rw [h1]; exact hstate, ?_, ?_⟩ <;>
      rw [h1] <;> unfold handleAlarmTrigger <;> simp [hwin]

/-- Witness for C7: an armed alarm receiving deliveries at `t = 0` and
`t = 30` rings once; the second delivery is swallowed. -/
theorem duplicate_fire_guard_spec_witness :
    (handleAlarmTrigger { alarm_id := "a1", name := "Wake", time := "07:00" }
        ⟨none, { state := AlarmState.armed }⟩ 0).snd = true :=
  (duplicate_fire_guard_spec { alarm_id := "a1", name := "Wake", time := "07:00" }
    { state := AlarmState.armed } 0 30 (by decide) (by decide) (by decide)).1

/-! ## Runtime-state restoration (`AlarmStateMachine.restore_from_data`) -/

/-- Embeds `AlarmState(value)`: parse a persisted state string, `none` models the
`ValueError` branch. -/
def parseAlarmState (s : String) : Option AlarmState :=
  if s = "disabled" then some AlarmState.disabled
  else if s = "armed" then some AlarmState.armed
  else if s = "pre_alarm" then some AlarmState.preAlarm
  else if s = "ringing" then some AlarmState.ringing
  else if s = "snoozed" then some AlarmState.snoozed
  else if s = "dismissed" then some AlarmState.dismissed
  else if s = "auto_dismissed" then some AlarmState.autoDismissed
  else if s = "missed" then some AlarmState.missed
  else none

/-- The dictionary passed to `restore_from_data` (datetime strings are
modelled as already-parsed instants; parse failures are claim-irrelevant). -/
structure RestoreData where
  state : Option String := none
  snooze_count : Option Nat := none
  last_triggered : Option Nat := none
  snooze_end_time : Option Nat := none
deriving DecidableEq, Repr

/-- Embeds `AlarmStateMachine.restore_from_data`: restore the persisted state value
verbatim when it parses as an `AlarmState`, defaulting to `Armed`/`Disabled`
from `enabled` only when it does not; then restore `snooze_count`,
`last_triggered` and `snooze_end_time`. -/
def restoreFromData (data : AlarmData) (r : AlarmRuntimeState) (d : RestoreData) :
    AlarmRuntimeState :=
  let stateValue := d.state.getD "disabled"
  let st :=
    match parseAlarmState stateValue with
    | some s => s
    | none => if data.enabled then AlarmState.armed else AlarmState.disabled
  let r1 := { r with state := st, snooze_count := d.snooze_count.getD 0 }
  let r2 :=
    match d.last_triggered with
    | some v => { r1 with last_triggered := some v }
    | none => r1
  match d.snooze_end_time with
  | some v => { r2 with snooze_end_time := some v }
  | none => r2

/-- Counterexample to claim C8: a persisted `"ringing"` snapshot of an enabled
alarm is restored verbatim as `Ringing` — it is not sanitized to `Armed`. -/
theorem restore_valid_state_not_sanitized_cex :
    (restoreFromData { alarm_id := "a1", name := "Wake", time := "07:00" } {}
        { state := some "ringing" }).state = AlarmState.ringing
    ∧ AlarmState.ringing ≠ AlarmState.armed := by
  constructor
  · rfl
  · decide

/-- Claim C8 as amended: `restore_from_data` keeps any state string that
parses as a valid `AlarmState` — including `PreAlarm`, `Ringing`, `Dismissed`,
`AutoDismissed` and `Missed` — and only an unparseable state value is
sanitized to `Armed` (enabled) or `Disabled` (disabled). -/
theorem restore_state_amended (data : AlarmData) (r : AlarmRuntimeState)
    (d : RestoreData) :
    (∀ s : AlarmState, parseAlarmState (d.state.getD "disabled") = some s →
      (restoreFromData data r d).state = s)
    ∧ (parseAlarmState (d.state.getD "disabled") = none →
      (restoreFromData data r d).state
        = if data.enabled then AlarmState.armed else AlarmState.disabled) := by
  constructor
  · intro s hs
    cases hlt : d.last_triggered <;> cases hse : d.snooze_end_time <;>
      simp [restoreFromData, hs, hlt, hse]
  · intro hs
    cases hlt : d.last_triggered <;> cases hse : d.snooze_end_time <;>
      simp [restoreFromData, hs, hlt, hse]

/-- Witness for the amended C8: a persisted `"missed"` state is restored as
`Missed`. -/
theorem restore_state_amended_witness :
    (restoreFromData { alarm_id := "a1", name := "Wake", time := "07:00" } {}
        { state := some "missed" }).state = AlarmState.missed :=
  (restore_state_amended { alarm_id := "a1", name := "Wake", time := "07:00" } {}
    { state := some "missed" }).1 AlarmState.missed (by decide)

/-! ## Execution pipeline (`AlarmClockCoordinator._async_execute_script`) -/

/-- The nine script slots passed as `script_attr` names to
`_get_effective_script`. -/
inductive ScriptSlot where
  | preAlarm
  | alarm
  | postAlarm
  | onSnooze
  | onDismiss
  | onArm
  | onCancel
  | onSkip
  | fallback
deriving DecidableEq, Repr

/-- Embeds `getattr(alarm.data, script_attr)` for the nine slot names. -/
def AlarmData.scriptOf (data : AlarmData) : ScriptSlot → Option String
  | .preAlarm => data.script_pre_alarm
  | .alarm => data.script_alarm
  | .postAlarm => data.script_post_alarm
  | .onSnooze => data.script_on_snooze
  | .onDismiss => data.script_on_dismiss
  | .onArm => data.script_on_arm
  | .onCancel => data.script_on_cancel
  | .onSkip => data.script_on_skip
  | .fallback => data.script_fallback

/-- The device-level defaults read from `self.entry.options`
(`default_script_*`, `default_script_timeout`, `default_script_retry_count`). -/
structure DeviceOptions where
  default_script_pre_alarm : Option String := none
  default_script_alarm : Option String := none
  default_script_post_alarm : Option String := none
  default_script_on_snooze : Option String := none
  default_script_on_dismiss : Option String := none
  default_script_on_arm : Option String := none
  default_script_on_cancel : Option String := none
  default_script_on_skip : Option String := none
  default_script_fallback : Option String := none
  default_script_timeout : Option Nat := none
  default_script_retry_count : Option Nat := none
deriving DecidableEq, Repr

/-- Embeds `options.get("default_" + script_attr)`. -/
def DeviceOptions.defaultScriptOf (opts : DeviceOptions) : ScriptSlot → Option String
  | .preAlarm => opts.default_script_pre_alarm
  | .alarm => opts.default_script_alarm
  | .postAlarm => opts.default_script_post_alarm
  | .onSnooze => opts.default_script_on_snooze
  | .onDismiss => opts.default_script_on_dismiss
  | .onArm => opts.default_script_on_arm
  | .onCancel => opts.default_script_on_cancel
  | .onSkip => opts.default_script_on_skip
  | .fallback => opts.default_script_fallback

/-- Embeds `AlarmClockCoordinator._get_effective_script`. -/
def effectiveScript (opts : DeviceOptions) (data : AlarmData) (slot : ScriptSlot) :
    Option String :=
  if !data.use_device_defaults then data.scriptOf slot
  else opts.defaultScriptOf slot

/-- Embeds `AlarmClockCoordinator._get_effective_script_retry_count`. -/
def effectiveRetryCount (opts : DeviceOptions) (data : AlarmData) : Nat :=
  if !data.use_device_defaults then data.script_retry_count
  else opts.default_script_retry_count.getD 3

/-- What one run of `_async_execute_script` did: the `(script, attempt)`
invocations in order, the backoff sleeps in seconds, the fired `ScriptFailed`
events as `(script, script_type, attempts)`, and the returned flag. -/
structure ExecTrace where
  attempts : List (String × Nat)
  sleeps : List Nat
  failedEvents : List (String × String × Nat)
  result : Bool
deriving DecidableEq, Repr

/-- The `for attempt in range(max_retries)` loop: `oracle script attempt`
tells whether that service call succeeded (timeouts and errors both count as
failure).  Called with `remaining` iterations left, so the current index is
`maxRetries - remaining`.  Returns whether some attempt succeeded, the
invocations made, and the sleeps taken. -/
def attemptLoop (oracle : String → Nat → Bool) (script : String) (maxRetries : Nat) :
    Nat → Bool × List (String × Nat) × List Nat
  | 0 => (false, [], [])
  | remaining + 1 =>
    let attempt := maxRetries - (remaining + 1)
    if oracle script attempt then (true, [(script, attempt)], [])
    else
      let backoff := if attempt < maxRetries - 1 then [2 ^ attempt] else []
      let rest := attemptLoop oracle script maxRetries remaining
      (rest.fst, (script, attempt) :: rest.snd.fst, backoff ++ rest.snd.snd)

/-- Embeds `AlarmClockCoordinator._async_execute_script`: succeed immediately with no
invocation when the slot is absent; otherwise run the retry loop; on
exhaustion fire `ScriptFailed` and, when an alarm-level `script_fallback`
exists and the failing script is not it, recurse once into the fallback slot.
`fuel` bounds the recursion depth (the code relies on the same guard to
terminate). -/
def executeScript (oracle : String → Nat → Bool) (opts : DeviceOptions)
    (data : AlarmData) : Nat → Option String → String → ExecTrace
  | _, none, _ => ⟨[], [], [], true⟩
  | fuel, some script, scriptType =>
    let maxRetries := effectiveRetryCount opts data
    let run := attemptLoop oracle script maxRetries maxRetries
    if run.fst then ⟨run.snd.fst, run.snd.snd, [], true⟩
    else
      let evts := [(script, scriptType, maxRetries)]
      match data.script_fallback with
      | some fb =>
        if script ≠ fb then
          match fuel with
          | 0 => ⟨run.snd.fst, run.snd.snd, evts, false⟩
          | fuel' + 1 =>
            let sub := executeScript oracle opts data fuel'
              (effectiveScript opts data ScriptSlot.fallback) "fallback"
            ⟨run.snd.fst ++ sub.attempts, run.snd.snd ++ sub.sleeps,
              evts ++ sub.failedEvents, sub.result⟩
        else ⟨run.snd.fst, run.snd.snd, evts, false⟩
      | none => ⟨run.snd.fst, run.snd.snd, evts, false⟩

lemma attemptLoop_all_fail (oracle : String → Nat → Bool) (script : String)
    (maxRetries : Nat)
    (hfail : ∀ i, i < maxRetries → oracle script i = false) :
    ∀ remaining, remaining ≤ maxRetries →
      attemptLoop oracle script maxRetries remaining
        = (false,
           (List.range' (maxRetries - remaining) remaining).map (fun i => (script, i)),
           (List.range' (maxRetries - remaining) (remaining - 1)).map (fun i => 2 ^ i)) := by
  intro remaining
  induction remaining with
  | zero => intro _; rfl
  | succ k ih =>
    intro hle
    have hattempt : maxRetries - (k + 1) < maxRetries := by omega
    have hstep : maxRetries - (k + 1) + 1 = maxRetries - k := by omega
    have e1 : List.range' (maxRetries - (k + 1)) (k + 1)
        = (maxRetries - (k + 1)) :: List.range' (maxRetries - k) k := by
      rw [List.range'_succ, hstep]
    simp only [attemptLoop, hfail _ hattempt, if_false, Bool.false_eq_true,
      ih (by omega : k ≤ maxRetries), e1, List.map_cons]
    rcases Nat.eq_zero_or_pos k with rfl | hk
    · have hnb : ¬ maxRetries - (0 + 1) < maxRetries - 1 := by omega
      simp [hnb]
    · obtain ⟨k', rfl⟩ : ∃ k', k = k' + 1 := ⟨k - 1, by omega⟩
      have hb : maxRetries - (k' + 1 + 1) < maxRetries - 1 := by omega
      have e2 : List.range' (maxRetries - (k' + 1 + 1)) (k' + 1)
          = (maxRetries - (k' + 1 + 1)) :: List.range' (maxRetries - (k' + 1)) k' := by
        have h3 : maxRetries - (k' + 1 + 1) + 1 = maxRetries - (k' + 1) := by omega
        rw [List.range'_succ, h3]
      simp [hb, e2]


/-- Counterexample to claim C6: with an effective `retry_count` of 2 (and no
fallback), `_async_execute_script` makes exactly 2 invocation attempts, not
the claimed `r + 1 = 3`: the loop is `for attempt in range(max_retries)`. -/
theorem execute_script_attempts_cex :
    (executeScript (fun _ _ => false) {}
        { alarm_id := "a1", name := "Wake", time := "07:00",
          use_device_defaults := false, script_retry_count := 2 }
        1 (some "script.wake") "alarm").attempts.length = 2
    ∧ ({ alarm_id := "a1", name := "Wake", time := "07:00",
          use_device_defaults := false,
          script_retry_count := 2 } : AlarmData).script_retry_count = 2
    ∧ ¬ (executeScript (fun _ _ => false) {}
        { alarm_id := "a1", name := "Wake", time := "07:00",
          use_device_defaults := false, script_retry_count := 2 }
        1 (some "script.wake") "alarm").attempts.length = 2 + 1 := by
  refine ⟨rfl, rfl, ?_⟩
  decide

/-- Claim C6 as amended: an absent slot returns success with no invocation;
with a slot present and all of its first `r = effectiveRetryCount` attempts
failing, the pipeline makes exactly `r` attempts (indices `0..r-1`), sleeps
`2^i` seconds after failed attempt `i` whenever `i < r - 1`, emits one
`ScriptFailed` event carrying `attempts = r`, then recurses exactly once into
the fallback slot when an alarm-level fallback exists and differs from the
failing script (returning the fallback run's result), and otherwise returns
failure. -/
theorem execute_script_exhaustion_spec (oracle : String → Nat → Bool)
    (opts : DeviceOptions) (data : AlarmData) (s scriptType : String) (fuel : Nat)
    (hfail : ∀ i, i < effectiveRetryCount opts data → oracle s i = false) :
    executeScript oracle opts data fuel none scriptType = ⟨[], [], [], true⟩
    ∧ executeScript oracle opts data (fuel + 1) (some s) scriptType
      = (let r := effectiveRetryCount opts data
         let base : ExecTrace :=
           ⟨(List.range r).map (fun i => (s, i)),
            (List.range (r - 1)).map (fun i => 2 ^ i),
            [(s, scriptType, r)], false⟩
         match data.script_fallback with
         | none => base
         | some fb =>
           if s = fb then base
           else
             let sub := executeScript oracle opts data fuel
               (effectiveScript opts data ScriptSlot.fallback) "fallback"
             ⟨base.attempts ++ sub.attempts, base.sleeps ++ sub.sleeps,
              base.failedEvents ++ sub.failedEvents, sub.result⟩) := by
  constructor
  · cases fuel <;> rfl
  · have hloop := attemptLoop_all_fail oracle s (effectiveRetryCount opts data) hfail
      (effectiveRetryCount opts data) le_rfl
    rw [Nat.sub_self] at hloop
    cases hfb : data.script_fallback with
    | none =>
      simp only [executeScript, hloop, Bool.false_eq_true, if_false, hfb,
        List.range_eq_range']
    | some fb =>
      by_cases heq : s = fb
      · subst heq
        simp only [executeScript, hloop, Bool.false_eq_true, if_false, hfb,
          List.range_eq_range']
        simp
      · simp only [executeScript, hloop, Bool.false_eq_true, if_false, hfb,
          List.range_eq_range']
        simp [heq]

/-- Witness for the amended C6: retry count 2, always-failing script, no
fallback: two attempts, one backoff sleep of 1 s, one `ScriptFailed` with
`attempts = 2`, failure returned. -/
theorem execute_script_exhaustion_spec_witness :
    executeScript (fun _ _ => false) {}
        { alarm_id := "a2", name := "Wake", time := "07:00",
          use_device_defaults := false, script_retry_count := 2 }
        1 (some "script.wake") "alarm"
      = ⟨[("script.wake", 0), ("script.wake", 1)], [1],
         [("script.wake", "alarm", 2)], false⟩ := by
  exact ((execute_script_exhaustion_spec (fun _ _ => false) {}
    { alarm_id := "a2", name := "Wake", time := "07:00",
      use_device_defaults := false, script_retry_count := 2 }
    "script.wake" "alarm" 0 (fun i _ => rfl)).2).trans (by decide)

/-! ## The `snooze` command (`AlarmClockCoordinator.async_snooze`) -/

/-- Python's `duration_minutes or alarm.data.snooze_duration`: `None` and `0`
are both falsy, so either yields the configured default. -/
def pySnoozeDuration (durationMinutes : Option Nat) (default : Nat) : Nat :=
  match durationMinutes with
  | none => default
  | some d => if d = 0 then default else d

/-- Outcome of `async_snooze`: the returned flag, the runtime state afterwards,
and the instant the snooze-end timer was armed for (if any). -/
structure SnoozeResult where
  accepted : Bool
  runtime : AlarmRuntimeState
  snoozeEndArmedAt : Option Nat
deriving DecidableEq, Repr

/-- Embeds `AlarmClockCoordinator.async_snooze` for a known alarm: refuse unless
`Ringing`; refuse when `snooze_count >= max_snooze_count`; otherwise resolve
the duration, transition to `Snoozed`, and arm the snooze-end timer (which
records `snooze_end_time` on the runtime state via `_schedule_snooze_end`). -/
def asyncSnooze (data : AlarmData) (r : AlarmRuntimeState)
    (durationMinutes : Option Nat) (now : Nat) : SnoozeResult :=
  if r.state ≠ AlarmState.ringing then
    ⟨false, r, none⟩
  else if r.snooze_count ≥ data.max_snooze_count then
    ⟨false, r, none⟩
  else
    let duration := pySnoozeDuration durationMinutes data.snooze_duration
    let snoozeEnd := now + duration * 60
    let r1 := (transitionTo r AlarmState.snoozed none false now).snd
    let r2 := { r1 with snooze_end_time := some snoozeEnd }
    ⟨true, r2, some snoozeEnd⟩

lemma transitionTo_snoozed_of_ringing (r : AlarmRuntimeState)
    (hr : r.state = AlarmState.ringing) (now : Nat) :
    transitionTo r AlarmState.snoozed none false now =
      (true, { r with state := AlarmState.snoozed, last_state_change := some now,
                      snooze_count := r.snooze_count + 1 }) := by
  have hcan : canTransitionTo r AlarmState.snoozed = true := by
    unfold canTransitionTo; rw [hr]; decide
  unfold transitionTo
  simp [hcan]

/-- Claim C1: a snooze is accepted exactly when the alarm is `Ringing` and
`snooze_count` is strictly below `max_snooze_count`; every accepted snooze
leaves `snooze_count ≤ max_snooze_count`; a refused snooze leaves the runtime
state unchanged. -/
theorem async_snooze_cap_spec (data : AlarmData) (r : AlarmRuntimeState)
    (dur : Option Nat) (now : Nat) :
    ((asyncSnooze data r dur now).accepted = true ↔
      r.state = AlarmState.ringing ∧ r.snooze_count < data.max_snooze_count)
    ∧ ((asyncSnooze data r dur now).accepted = true →
        (asyncSnooze data r dur now).runtime.snooze_count ≤ data.max_snooze_count)
    ∧ ((asyncSnooze data r dur now).accepted = false →
        (asyncSnooze data r dur now).runtime = r) := by
  by_cases hr : r.state = AlarmState.ringing
  · by_cases hc : r.snooze_count ≥ data.max_snooze_count
    · refine ⟨?_, ?_, ?_⟩ <;> simp [asyncSnooze, hr, hc, Nat.not_lt.mpr hc]
    · have hlt : r.snooze_count < data.max_snooze_count := Nat.lt_of_not_le hc
      refine ⟨by simp [asyncSnooze, hr, hc, hlt], ?_, by
        simp [asyncSnooze, hr, hc]⟩
      simp [asyncSnooze, hr, hc, transitionTo_snoozed_of_ringing r hr now]
      omega
  · refine ⟨?_, ?_, ?_⟩ <;> simp [asyncSnooze, hr]

/-- Witness for C1: a ringing alarm with `snooze_count = 0 < 3` is accepted. -/
theorem async_snooze_cap_spec_witness :
    (asyncSnooze { alarm_id := "a1", name := "Wake", time := "07:00" }
        { state := AlarmState.ringing } none 100).accepted = true :=
  (async_snooze_cap_spec { alarm_id := "a1", name := "Wake", time := "07:00" }
      { state := AlarmState.ringing } none 100).1.mpr ⟨rfl, by decide⟩

/-- Claim C10: an explicit snooze duration of `0` minutes behaves exactly like
an absent duration: the snooze end is scheduled using the alarm's configured
`snooze_duration`. -/
theorem snooze_zero_duration_uses_default (data : AlarmData) (r : AlarmRuntimeState)
    (now : Nat) (hring : r.state = AlarmState.ringing)
    (hcap : r.snooze_count < data.max_snooze_count) :
    (asyncSnooze data r (some 0) now).snoozeEndArmedAt
        = some (now + data.snooze_duration * 60)
    ∧ asyncSnooze data r (some 0) now = asyncSnooze data r none now := by
  have hc : ¬ r.snooze_count ≥ data.max_snooze_count := Nat.not_le.mpr hcap
  constructor <;> simp [asyncSnooze, hring, hc, pySnoozeDuration]

/-- Witness for C10: with the default configured duration of 9 minutes,
snoozing with an explicit `0` arms the snooze end 540 seconds out. -/
theorem snooze_zero_duration_uses_default_witness :
    (asyncSnooze { alarm_id := "a1", name := "Wake", time := "07:00" }
        { state := AlarmState.ringing } (some 0) 100).snoozeEndArmedAt = some 640 :=
  (snooze_zero_duration_uses_default { alarm_id := "a1", name := "Wake", time := "07:00" }
      { state := AlarmState.ringing } 100 rfl (by decide)).1

end AlarmClock
